import Mathlib

/-
Verification of the EG prompt builder (src/eg_prompt_builder.py) against its
natural-language specification.

Python strings are modelled as lists of characters (`Str`); Python dicts
mapping section names to text are modelled as insertion-ordered association
lists with overwrite-in-place assignment (`Dict`), matching CPython dict
semantics for the operations the script uses (get, set, items, iteration).
Python `str.replace` is modelled with an explicit fuel argument equal to the
length of the subject string, which is always sufficient since each step of
the scan consumes at least one character.  `Char.toLower` /
`Char.isWhitespace` coincide with Python's `str.lower` / `str.strip` on the
ASCII data the script manipulates.
-/

abbrev Str := List Char

abbrev Dict := List (Str × Str)

def commaChar : Char := ','

def semicolonChar : Char := ';'

/-- Model of Python `str.lower()` (ASCII). -/
def lower (s : Str) : Str := s.map Char.toLower

/-- Drops the longest run of characters satisfying `p` from the right end. -/
def dropRightWhile (p : Char → Bool) (s : Str) : Str :=
  (s.reverse.dropWhile p).reverse

/-- Model of Python `str.strip()` (no arguments): removes whitespace from both ends. -/
def pyStrip (s : Str) : Str :=
  dropRightWhile (fun c => c.isWhitespace) (s.dropWhile (fun c => c.isWhitespace))

/-- Model of Python `str.strip(ch)` for a single strip character. -/
def pyStripChar (ch : Char) (s : Str) : Str :=
  dropRightWhile (fun c => c == ch) (s.dropWhile (fun c => c == ch))

/-- Model of Python `str.rstrip(",")`. -/
def rstripComma (s : Str) : Str :=
  dropRightWhile (fun c => c == commaChar) s

/-- Whether `pat` occurs at the start of `s`. -/
def startsWith : Str → Str → Bool
  | [], _ => true
  | _ :: _, [] => false
  | a :: as, b :: bs => a == b && startsWith as bs

/-- Whether `pat` occurs anywhere inside `s` (Python `pat in s`). -/
def isSubstrB (pat : Str) : Str → Bool
  | [] => pat.isEmpty
  | c :: rest => startsWith pat (c :: rest) || isSubstrB pat rest

/-- Fueled scan implementing Python `str.replace(old, new)`: replaces
non-overlapping occurrences left to right.  With fuel at least the length of
the subject the scan always runs to completion; the script only ever calls
replace with fixed non-empty placeholder literals as `old`. -/
def replaceFuel (old new : Str) : Nat → Str → Str
  | 0, s => s
  | _ + 1, [] => []
  | fuel + 1, c :: rest =>
    if startsWith old (c :: rest) = true ∧ old ≠ [] then
      new ++ replaceFuel old new fuel (List.drop old.length (c :: rest))
    else
      c :: replaceFuel old new fuel rest

/-- Python `s.replace(old, new)`. -/
def pyReplace (old new s : Str) : Str := replaceFuel old new s.length s

/-- Python `sep.join(parts)`. -/
def joinSep (sep : Str) : List Str → Str
  | [] => []
  | [x] => x
  | x :: y :: xs => x ++ sep ++ joinSep sep (y :: xs)

/-- Splits a string at every separator character (Python `re.split` over a
character class). -/
def splitAnySep (isSep : Char → Bool) : Str → List Str
  | [] => [[]]
  | c :: rest =>
    let r := splitAnySep isSep rest
    if isSep c then [] :: r
    else
      match r with
      | [] => [[c]]
      | h :: t => (c :: h) :: t

def nonEmptyB (s : Str) : Bool := decide (s ≠ [])

/-- Boolean guard on the first character of a string (vacuously true when empty). -/
def headOk (p : Char → Bool) (s : Str) : Bool :=
  match s.head? with
  | none => true
  | some c => p c

/-- Boolean guard on the last character of a string (vacuously true when empty). -/
def lastOk (p : Char → Bool) (s : Str) : Bool :=
  match s.getLast? with
  | none => true
  | some c => p c

/-- Decimal rendering of a number, as interpolated by a Python f-string. -/
def natStr (n : Nat) : Str := (Nat.repr n).data

/-- Python dict lookup `d.get(k)`. -/
def dictGet : Dict → Str → Option Str
  | [], _ => none
  | p :: rest, k => if p.1 = k then some p.2 else dictGet rest k

/-- Python dict assignment `d[k] = v`: overwrites in place, else appends. -/
def dictSet : Dict → Str → Str → Dict
  | [], k, v => [(k, v)]
  | p :: rest, k, v => if p.1 = k then (k, v) :: rest else p :: dictSet rest k v

-- ---------------------------------------------------------------------------
-- String constants of the script
-- ---------------------------------------------------------------------------

def phName : Str := "[CHARACTER NAME]".data

def phHair : Str := "[PASTE HAIR BLOCK HERE]".data

def phCasual : Str := "[PASTE CASUAL OUTFIT BLOCK HERE]".data

def phPajamas : Str := "[PASTE PAJAMAS BLOCK HERE]".data

def phCamp : Str := "[PASTE CAMP EVERFREE OUTFIT BLOCK HERE]".data

def placeholderList : List Str := [phName, phHair, phCasual, phPajamas, phCamp]

def sepCS : Str := ", ".data

def sepAnd : Str := " and ".data

def sNewline : Str := "\n".data

def sColonSpace : Str := ": ".data

def sCasual : Str := "casual".data

def sPajamas : Str := "pajamas".data

def sCamp : Str := "camp".data

def sAuto : Str := "auto".data

def sSleep : Str := "sleep".data

def sClassroom : Str := "classroom".data

def sWinter : Str := "winter".data

def sChild : Str := "child".data

def sTeen : Str := "teen".data

def sAdult : Str := "adult".data

def sFemale : Str := "female".data

def sMale : Str := "male".data

def dTeenGirl : Str := "teen girl, female".data

def dTeenBoy : Str := "teen boy, male".data

def dChildGirl : Str := "child girl, female".data

def dChildBoy : Str := "child boy, male".data

def dAdultWoman : Str := "adult woman, female".data

def dAdultMan : Str := "adult man, male".data

def keyDemographics : Str := "Demographics".data

def keyCharacterIdentity : Str := "Character_Identity".data

def keyHBP : Str := "Hair_Block_Placeholder".data

def keyPose : Str := "Pose".data

def keyBody : Str := "Body".data

def keyHands : Str := "Hands".data

def keyClothing : Str := "Clothing".data

def keyHeader : Str := "Header".data

def keyHeadStructure : Str := "Head_Structure".data

def keyCampClothingBlock : Str := "Camp_Everfree_Clothing_Block".data

def keyArtStyle : Str := "Art_Style".data

def keyEnvironment : Str := "Environment".data

def keyLighting : Str := "Lighting".data

def keyBackgroundElement : Str := "Background_Element".data

def keyMood : Str := "Mood".data

def keyNegHeader : Str := "Negative_Prompt_Header".data

def keyNegContent1 : Str := "Negative_Content_1".data

def keyNegContent2 : Str := "Negative_Content_2".data

def keyNegContent3 : Str := "Negative_Content_3".data

def keyNegContent4 : Str := "Negative_Content_4".data

def keyNegContent5 : Str := "Negative_Content_5".data

def keyRecCFG : Str := "Recommended_CFG".data

def keyRecSteps : Str := "Recommended_Steps".data

def keyRecSampler : Str := "Recommended_Sampler".data

def keyRecResolution : Str := "Recommended_Resolution".data

def sRecommendedMark : Str := "Recommended_".data

def sClothingLower : Str := "clothing".data

def sGroupSuffix : Str := ", equestria girls, group of students".data

def sBodyDefault : Str := "simple composition, clear spacing between characters".data

def sHandsDefault : Str := "simple cartoon hands, hands at sides or resting, five fingers per hand".data

def sClothingDefault : Str := "modest clothing".data

def sGroupShot : Str := "group shot, ".data

def sPoseClassroomTail : Str := " students, sitting at desks, simple composition".data

def sPoseSleepTail : Str := " students, sleepover scene, simple composition".data

def sPoseStandingTail : Str := " students, standing together, simple composition".data

def sPoseCampTail : Str := " students, camp everfree scene, simple composition".data

def colCharacter : Str := "Character".data

def colAgeGroup : Str := "Age_Group".data

def colGender : Str := "Gender".data

def colHairBlock : Str := "Hair_Block".data

def colCasualBlock : Str := "Casual_Outfit_Block".data

def colPajamasBlock : Str := "Pajamas_Block".data

def colCampBlock : Str := "Camp_Everfree_Outfit_Block".data

def requiredCols : List Str :=
  [colCharacter, colAgeGroup, colGender, colHairBlock, colCasualBlock,
   colPajamasBlock, colCampBlock]

-- ---------------------------------------------------------------------------
-- Data model
-- ---------------------------------------------------------------------------

/-- One character entry from the reference CSV (dataclass `CharacterRow`). -/
structure CharacterRow where
  character : Str
  age_group : Str
  gender : Str
  hair : Str
  casual : Str
  pajamas : Str
  camp : Str
deriving DecidableEq

/-- One raw CSV data row, as produced by `csv.DictReader`: any field may be
absent/None. -/
structure RawCharRow where
  character : Option Str
  age_group : Option Str
  gender : Option Str
  hair : Option Str
  casual : Option Str
  pajamas : Option Str
  camp : Option Str
deriving DecidableEq

/-- `read_characters_csv`: header validation, then row filtering.  File IO and
the parsing mechanics of `csv.DictReader` are external; its observable output
(the field names plus the per-row field lookups) is the input here. -/
def read_characters_csv (fieldnames : List Str) (rows : List RawCharRow) :
    Except (List Str) (List CharacterRow) :=
  let missing := requiredCols.filter (fun f => decide (f ∉ fieldnames))
  if missing ≠ [] then
    Except.error missing
  else
    Except.ok (rows.filterMap (fun r =>
      let name := pyStrip (r.character.getD [])
      if name = [] then none
      else some
        { character := name
          age_group := lower (pyStrip (r.age_group.getD []))
          gender := lower (pyStrip (r.gender.getD []))
          hair := pyStrip (r.hair.getD [])
          casual := pyStrip (r.casual.getD [])
          pajamas := pyStrip (r.pajamas.getD [])
          camp := pyStrip (r.camp.getD []) }))

/-- `parse_list`: split on commas/semicolons, strip parts, drop empties. -/
def parse_list (s : Str) : List Str :=
  ((splitAnySep (fun c => c == commaChar || c == semicolonChar) s).map pyStrip).filter nonEmptyB

/-- `build_lookup`: the dict comprehension keyed by lowercased names; a later
row with the same lowercased name overwrites an earlier one. -/
def build_lookup (rows : List CharacterRow) (key : Str) : Option CharacterRow :=
  rows.foldl (fun acc r => if lower r.character = key then some r else acc) none

/-- `resolve_outfit_mode`. -/
def resolve_outfit_mode (kind forced_mode : Str) : Str :=
  if forced_mode = sCasual ∨ forced_mode = sPajamas ∨ forced_mode = sCamp then
    forced_mode
  else if kind = sSleep then sPajamas
  else if kind = sCamp then sCamp
  else sCasual

/-- `outfit_block_for`. -/
def outfit_block_for (c : CharacterRow) (outfit_mode : Str) : Str :=
  if outfit_mode = sPajamas then c.pajamas
  else if outfit_mode = sCamp then c.camp
  else c.casual

/-- `demographics_tags`. -/
def demographics_tags (age_group gender : Str) : Str :=
  let ag := lower (pyStrip age_group)
  let g := lower (pyStrip gender)
  let age :=
    if ag = sChild then sChild
    else if ag = sTeen then sTeen
    else if ag = sAdult then sAdult
    else if ag = [] then sTeen else ag
  let gen :=
    if g = sFemale then sFemale
    else if g = sMale then sMale
    else if g = [] then sFemale else g
  if age = sTeen ∧ gen = sFemale then dTeenGirl
  else if age = sTeen ∧ gen = sMale then dTeenBoy
  else if age = sChild ∧ gen = sFemale then dChildGirl
  else if age = sChild ∧ gen = sMale then dChildBoy
  else if age = sAdult ∧ gen = sFemale then dAdultWoman
  else if age = sAdult ∧ gen = sMale then dAdultMan
  else age ++ sepCS ++ gen

/-- `group_pose_hint`. -/
def group_pose_hint (kind : Str) (n : Nat) : Str :=
  if kind = sClassroom then sGroupShot ++ natStr n ++ sPoseClassroomTail
  else if kind = sSleep then sGroupShot ++ natStr n ++ sPoseSleepTail
  else if kind = sWinter then sGroupShot ++ natStr n ++ sPoseStandingTail
  else if kind = sCamp then sGroupShot ++ natStr n ++ sPoseCampTail
  else sGroupShot ++ natStr n ++ sPoseStandingTail

/-- The five placeholder substitutions applied to one template section's
content in `assemble_single`, in the order the script performs them. -/
def substitute_placeholders (c : CharacterRow) (content : Str) : Str :=
  pyReplace phCamp c.camp
    (pyReplace phPajamas c.pajamas
      (pyReplace phCasual c.casual
        (pyReplace phHair c.hair
          (pyReplace phName c.character content))))

/-- The value stored for one template section by the `assemble_single` loop:
placeholder substitution plus the clothing fallback injection. -/
def single_section_out (c : CharacterRow) (outfit_mode : Str) (item : Str × Str) : Str :=
  let out := substitute_placeholders c item.2
  if lower item.1 = sClothingLower ∧ pyStrip out = [] then
    outfit_block_for c outfit_mode
  else out

/-- `assemble_single`. -/
def assemble_single (template_items : List (Str × Str)) (c : CharacterRow)
    (kind forced_mode : Str) : Dict :=
  let outfit_mode := resolve_outfit_mode kind forced_mode
  let assembled := template_items.foldl
    (fun d it => dictSet d it.1 (single_section_out c outfit_mode it)) []
  dictSet assembled keyDemographics (demographics_tags c.age_group c.gender)

/-- One per-character identity fragment of the group hair/outfit block:
`", ".join([c.character, c.hair.rstrip(","), outfit.rstrip(",")])`. -/
def group_fragment (outfit_mode : Str) (c : CharacterRow) : Str :=
  joinSep sepCS [c.character, rstripComma c.hair, rstripComma (outfit_block_for c outfit_mode)]

/-- The final placeholder-clearing pass of `assemble_group`, applied to every
stored value: name placeholder becomes the " and "-joined name list, the block
placeholders become empty, then `.strip().strip(",")`. -/
def cleanup_value (names : List Str) (val : Str) : Str :=
  pyStripChar commaChar (pyStrip
    (pyReplace phCamp []
      (pyReplace phPajamas []
        (pyReplace phCasual []
          (pyReplace phHair []
            (pyReplace phName (joinSep sepAnd names) val))))))

/-- `assemble_group`. -/
def assemble_group (template_items : List (Str × Str)) (group_chars : List CharacterRow)
    (kind forced_mode : Str) : Dict :=
  let outfit_mode := resolve_outfit_mode kind forced_mode
  let n := group_chars.length
  let names := group_chars.map (fun x => x.character)
  let assembled := template_items.foldl (fun d it => dictSet d it.1 it.2) []
  let assembled := dictSet assembled keyCharacterIdentity (joinSep sepCS names ++ sGroupSuffix)
  let assembled := dictSet assembled keyHBP
    (joinSep sepCS (group_chars.map (group_fragment outfit_mode)))
  let pose_template := pyStrip ((dictGet assembled keyPose).getD [])
  let assembled := dictSet assembled keyPose
    (joinSep sepCS (([group_pose_hint kind n, pose_template]).filter nonEmptyB))
  let assembled := dictSet assembled keyBody sBodyDefault
  let assembled := dictSet assembled keyHands sHandsDefault
  let assembled := dictSet assembled keyClothing sClothingDefault
  let assembled := dictSet assembled keyDemographics
    (joinSep sepCS (group_chars.map (fun x => demographics_tags x.age_group x.gender)))
  assembled.map (fun p => (p.1, cleanup_value names p.2))

/-- `get(sec)` helper inside `render_prompt`: `(assembled.get(sec) or "").strip()`. -/
def getS (assembled : Dict) (sec : Str) : Str :=
  pyStrip ((dictGet assembled sec).getD [])

def mainSectionOrder : List Str :=
  [keyHeader, keyCharacterIdentity, keyDemographics, keyHBP, keyHeadStructure,
   keyPose, keyBody, keyHands, keyClothing, keyCampClothingBlock, keyArtStyle,
   keyEnvironment, keyLighting, keyBackgroundElement, keyMood]

def negContentOrder : List Str :=
  [keyNegContent1, keyNegContent2, keyNegContent3, keyNegContent4, keyNegContent5]

def negSectionOrder : List Str := keyNegHeader :: negContentOrder

def settingsOrder : List Str :=
  [keyRecCFG, keyRecSteps, keyRecSampler, keyRecResolution]

/-- The three rendered outputs of `render_prompt`. -/
structure Rendered where
  main : Str
  negative : Str
  settings : Str
deriving DecidableEq

/-- `render_prompt`. -/
def render_prompt (assembled : Dict) : Rendered :=
  let mainParts :=
    ((mainSectionOrder.filter (fun s => nonEmptyB (getS assembled s))).map
      (fun s => rstripComma (getS assembled s))).filter nonEmptyB
  let negParts :=
    (if getS assembled keyNegHeader ≠ [] then [rstripComma (getS assembled keyNegHeader)] else []) ++
      negContentOrder.filterMap (fun s =>
        if getS assembled s ≠ [] then some (rstripComma (getS assembled s)) else none)
  let settingsLines := settingsOrder.filterMap (fun s =>
    if getS assembled s ≠ [] then
      some (pyReplace sRecommendedMark [] s ++ sColonSpace ++ getS assembled s)
    else none)
  { main := joinSep sepCS mainParts
    negative := joinSep sepCS (negParts.filter nonEmptyB)
    settings := joinSep sNewline settingsLines }

/-- Possible failures of the manual-group resolution step. -/
inductive GroupError
  | tooFew
  | notFound (missing : List Str)
deriving DecidableEq

/-- The name-resolution loop shared by `generate_manual_group`: resolved
records are appended in input order, unmatched names are collected. -/
def resolve_scope_names (lookup : Str → Option CharacterRow) (names : List Str) :
    List CharacterRow × List Str :=
  names.foldl (fun acc n =>
    match lookup (lower n) with
    | some r => (acc.1 ++ [r], acc.2)
    | none => (acc.1, acc.2 ++ [n])) ([], [])

/-- The input-resolution portion of `generate_manual_group`: parse the typed
group string, require at least two names, resolve each against the scope
lookup, and raise on any unmatched name. -/
def manual_group_resolve (lookup : Str → Option CharacterRow) (group_str : Str) :
    Except GroupError (List CharacterRow) :=
  let names := parse_list group_str
  if names.length < 2 then Except.error GroupError.tooFew
  else
    let res := resolve_scope_names lookup names
    if res.2 ≠ [] then Except.error (GroupError.notFound res.2)
    else Except.ok res.1

-- ---------------------------------------------------------------------------
-- Parts of the specified system absent from the source
-- ---------------------------------------------------------------------------

inductive HeightTier
  | short
  | average
  | tall
deriving DecidableEq

def sAthletic : Str := "athletic".data

def sPetite : Str := "petite".data

/-- Modelled from the spec: the source file contains no height derivation at
all (its character rows do not even carry a body-type field); the
`height_tier` decision table exists only in the specification, which gives:
child → short unconditionally; adult → tall when the body type contains
"athletic", else average; teen → short when it contains "petite", tall when it
contains "athletic", else average. -/
def height_tier (age_group body_type : Str) : HeightTier :=
  if age_group = sChild then HeightTier.short
  else if age_group = sAdult then
    (if isSubstrB sAthletic body_type then HeightTier.tall else HeightTier.average)
  else if isSubstrB sPetite body_type then HeightTier.short
  else if isSubstrB sAthletic body_type then HeightTier.tall
  else HeightTier.average

-- ---------------------------------------------------------------------------
-- Spec-side rendering (for the refinement comparison of the main prompt)
-- ---------------------------------------------------------------------------

/-- From the spec's words, as amended: the main prompt is the ", "-join, in
the fixed declared section order, of the values of exactly the sections whose
trimmed content (surrounding whitespace and trailing commas removed) is
non-empty; sections absent from the mapping or outside the declared order
contribute nothing. -/
def mainPromptSpec (assembled : Dict) : Str :=
  joinSep sepCS (mainSectionOrder.filterMap (fun s =>
    if rstripComma (getS assembled s) = [] then none
    else some (rstripComma (getS assembled s))))

-- ---------------------------------------------------------------------------
-- Concrete sample data used by witnesses and counterexamples
-- ---------------------------------------------------------------------------

def rarityRec : CharacterRow :=
  { character := "Rarity".data
    age_group := "teen".data
    gender := "female".data
    hair := "purple hair, elegant curls".data
    casual := "white blouse, violet skirt".data
    pajamas := "silk pajamas".data
    camp := "camp vest, shorts".data }

def applejackRec : CharacterRow :=
  { character := "Applejack".data
    age_group := "teen".data
    gender := "female".data
    hair := "blonde hair, ponytail".data
    casual := "denim skirt, boots".data
    pajamas := "flannel pajamas".data
    camp := "camp shirt, jeans".data }

def demoRoster : List CharacterRow := [rarityRec, applejackRec]

def demoGroup : List CharacterRow := [rarityRec, applejackRec]

def sHeaderContent : Str := "score_9, source_cartoon".data

def demoItems : Dict := [(keyHeader, sHeaderContent), (keyPose, []), (keyClothing, [])]

def itemsClothed : Dict := [(keyHeader, sHeaderContent), (keyClothing, "school uniform".data)]

def itemsBlankClothing : Dict := [(keyHeader, sHeaderContent), (keyClothing, [])]

def inputRRA : Str := "Rarity, rarity, Applejack".data

def resolvedRRA : List CharacterRow := [rarityRec, rarityRec, applejackRec]

def inputRN : Str := "Rarity, Nobody".data

def nNobody : Str := "Nobody".data

def blankRawRow : RawCharRow :=
  { character := some "   ".data
    age_group := some "teen".data
    gender := none
    hair := none
    casual := none
    pajamas := none
    camp := none }

def keyHeight : Str := "Height".data

def keyBodyType : Str := "Body_Type".data

def keyScenario : Str := "Scenario".data

def sBar : Str := "bar".data

def sCommaIndoors : Str := ",indoors".data

def mLeadingComma : Dict := [(keyEnvironment, sCommaIndoors), (keyScenario, sBar)]

def sNegText : Str := "score_4, bad anatomy, extra limbs".data

def mNegDemo : Dict := [(keyHeader, sHeaderContent), (keyNegHeader, sNegText)]

def groupDemographicsRA : Str := "teen girl, female, teen girl, female".data

/-- The raw per-member identity join for the demo group under the sleep
template in auto outfit mode. -/
def rawDemo : Str :=
  joinSep sepCS (demoGroup.map (group_fragment (resolve_outfit_mode sSleep sAuto)))

-- ---------------------------------------------------------------------------
-- Helper lemmas
-- ---------------------------------------------------------------------------

theorem dictGet_set_self (d : Dict) (k v : Str) : dictGet (dictSet d k v) k = some v := by
  induction d with
  | nil => simp [dictSet, dictGet]
  | cons p rest ih =>
    by_cases h : p.1 = k
    · simp [dictSet, h, dictGet]
    · simp [dictSet, h, dictGet, ih]

theorem dictGet_set_ne (d : Dict) (k v k' : Str) (h : k' ≠ k) :
    dictGet (dictSet d k v) k' = dictGet d k' := by
  induction d with
  | nil => simp [dictSet, dictGet, Ne.symm h]
  | cons p rest ih =>
    by_cases hp : p.1 = k
    · simp [dictSet, hp, dictGet, Ne.symm h]
    · by_cases hq : p.1 = k'
      · simp [dictSet, hp, dictGet, hq, h]
      · simp [dictSet, hp, dictGet, hq, ih]

theorem dictGet_map_val (f : Str → Str) (d : Dict) (k : Str) :
    dictGet (d.map (fun p => (p.1, f p.2))) k = (dictGet d k).map f := by
  induction d with
  | nil => simp [dictGet]
  | cons p rest ih =>
    by_cases h : p.1 = k
    · simp [dictGet, h]
    · simp [dictGet, h, ih]

theorem dictGet_foldl_set_ne (f : Str × Str → Str) (items : List (Str × Str)) (d : Dict)
    (k : Str) (h : ∀ it ∈ items, it.1 ≠ k) :
    dictGet (items.foldl (fun d it => dictSet d it.1 (f it)) d) k = dictGet d k := by
  induction items generalizing d with
  | nil => rfl
  | cons it rest ih =>
    rw [List.foldl_cons, ih _ (fun j hj => h j (List.mem_cons_of_mem _ hj)),
      dictGet_set_ne _ _ _ _ (Ne.symm (h it (List.mem_cons_self _ _)))]

theorem dictGet_foldl_set_mem (f : Str × Str → Str) (items : List (Str × Str)) (d : Dict)
    (it : Str × Str) (hp : items.Pairwise (fun a b => a.1 ≠ b.1)) (hm : it ∈ items) :
    dictGet (items.foldl (fun d j => dictSet d j.1 (f j)) d) it.1 = some (f it) := by
  induction items generalizing d with
  | nil => cases hm
  | cons hd tl ih =>
    rw [List.foldl_cons]
    rcases List.mem_cons.mp hm with h1 | h2
    · subst h1
      rw [dictGet_foldl_set_ne _ _ _ _
        (fun j hj => Ne.symm ((List.pairwise_cons.mp hp).1 j hj)), dictGet_set_self]
    · exact ih _ (List.pairwise_cons.mp hp).2 h2

theorem startsWith_append (p s : Str) : startsWith p (p ++ s) = true := by
  induction p with
  | nil => rfl
  | cons a as ih => simp [startsWith, ih]

theorem isSubstrB_of_startsWith {p s : Str} (h : startsWith p s = true) :
    isSubstrB p s = true := by
  cases s with
  | nil =>
    cases p with
    | nil => rfl
    | cons a as => simp [startsWith] at h
  | cons c rest => simp [isSubstrB, h]

theorem isSubstrB_append_left {p t : Str} (s : Str) (h : isSubstrB p t = true) :
    isSubstrB p (s ++ t) = true := by
  induction s with
  | nil => simpa using h
  | cons c s' ih => simp [isSubstrB, ih]

theorem isSubstrB_nil_pat (s : Str) : isSubstrB [] s = true := by
  cases s with
  | nil => rfl
  | cons c rest => simp [isSubstrB, startsWith]

theorem isSubstrB_joinSep {p : Str} (sep : Str) {l : List Str} (h : p ∈ l) :
    isSubstrB p (joinSep sep l) = true := by
  induction l with
  | nil => cases h
  | cons x xs ih =>
    rcases List.mem_cons.mp h with h1 | h2
    · subst h1
      cases xs with
      | nil =>
        show isSubstrB p (joinSep sep [p]) = true
        simp only [joinSep]
        exact isSubstrB_of_startsWith (by simpa using startsWith_append p [])
      | cons y ys =>
        simp only [joinSep]
        apply isSubstrB_of_startsWith
        rw [List.append_assoc]
        exact startsWith_append p _
    · cases xs with
      | nil => cases h2
      | cons y ys =>
        simp only [joinSep]
        rw [List.append_assoc]
        exact isSubstrB_append_left _ (isSubstrB_append_left _ (ih h2))

theorem replaceFuel_eq_self {old : Str} (new : Str) (fuel : Nat) (s : Str)
    (h : isSubstrB old s = false) : replaceFuel old new fuel s = s := by
  induction fuel generalizing s with
  | zero => rfl
  | succ f ih =>
    cases s with
    | nil => rfl
    | cons c rest =>
      have h' : startsWith old (c :: rest) = false ∧ isSubstrB old rest = false := by
        simpa [isSubstrB, Bool.or_eq_false_iff] using h
      rw [replaceFuel, if_neg (by rintro ⟨ha, -⟩; rw [h'.1] at ha; cases ha), ih rest h'.2]

theorem pyReplace_eq_self (old new s : Str) (h : isSubstrB old s = false) :
    pyReplace old new s = s :=
  replaceFuel_eq_self new s.length s h

theorem dropWhile_eq_self_of_headOk {p : Char → Bool} {s : Str}
    (h : headOk (fun c => !p c) s = true) : s.dropWhile p = s := by
  cases s with
  | nil => rfl
  | cons c rest =>
    have hc : p c = false := by simpa [headOk] using h
    simp [List.dropWhile_cons, hc]

theorem dropRightWhile_eq_self {p : Char → Bool} {s : Str}
    (h : lastOk (fun c => !p c) s = true) : dropRightWhile p s = s := by
  unfold dropRightWhile
  have hh : headOk (fun c => !p c) s.reverse = true := by
    simp only [headOk, List.head?_reverse]
    simpa [lastOk] using h
  rw [dropWhile_eq_self_of_headOk hh, List.reverse_reverse]

theorem pyStrip_eq_self {s : Str}
    (hh : headOk (fun c => !c.isWhitespace) s = true)
    (hl : lastOk (fun c => !c.isWhitespace) s = true) : pyStrip s = s := by
  unfold pyStrip
  rw [dropWhile_eq_self_of_headOk hh, dropRightWhile_eq_self hl]

theorem pyStripChar_eq_self {ch : Char} {s : Str}
    (hh : headOk (fun c => !(c == ch)) s = true)
    (hl : lastOk (fun c => !(c == ch)) s = true) : pyStripChar ch s = s := by
  unfold pyStripChar
  rw [dropWhile_eq_self_of_headOk hh, dropRightWhile_eq_self hl]

theorem headOk_mono {p q : Char → Bool} {s : Str} (himp : ∀ c, p c = true → q c = true)
    (h : headOk p s = true) : headOk q s = true := by
  cases s with
  | nil => rfl
  | cons c rest =>
    have : p c = true := by simpa [headOk] using h
    simpa [headOk] using himp c this

theorem lastOk_mono {p q : Char → Bool} {s : Str} (himp : ∀ c, p c = true → q c = true)
    (h : lastOk p s = true) : lastOk q s = true := by
  unfold lastOk at h ⊢
  cases hL : s.getLast? with
  | none => simp
  | some c =>
    rw [hL] at h
    simp only []
    exact himp c h

theorem cleanup_value_eq_self (names : List Str) (s : Str)
    (h1 : isSubstrB phName s = false) (h2 : isSubstrB phHair s = false)
    (h3 : isSubstrB phCasual s = false) (h4 : isSubstrB phPajamas s = false)
    (h5 : isSubstrB phCamp s = false)
    (hh : headOk (fun c => !c.isWhitespace && !(c == commaChar)) s = true)
    (hl : lastOk (fun c => !c.isWhitespace && !(c == commaChar)) s = true) :
    cleanup_value names s = s := by
  have hwsh : headOk (fun c => !c.isWhitespace) s = true :=
    headOk_mono (fun c hc => ((Bool.and_eq_true _ _).mp hc).1) hh
  have hwsl : lastOk (fun c => !c.isWhitespace) s = true :=
    lastOk_mono (fun c hc => ((Bool.and_eq_true _ _).mp hc).1) hl
  have hcomh : headOk (fun c => !(c == commaChar)) s = true :=
    headOk_mono (fun c hc => ((Bool.and_eq_true _ _).mp hc).2) hh
  have hcoml : lastOk (fun c => !(c == commaChar)) s = true :=
    lastOk_mono (fun c hc => ((Bool.and_eq_true _ _).mp hc).2) hl
  unfold cleanup_value
  rw [pyReplace_eq_self _ _ _ h1, pyReplace_eq_self _ _ _ h2, pyReplace_eq_self _ _ _ h3,
    pyReplace_eq_self _ _ _ h4, pyReplace_eq_self _ _ _ h5,
    pyStrip_eq_self hwsh hwsl, pyStripChar_eq_self hcomh hcoml]

theorem resolve_scope_names_eq (lookup : Str → Option CharacterRow) (names : List Str) :
    resolve_scope_names lookup names =
      (names.filterMap (fun n => lookup (lower n)),
       names.filter (fun n => (lookup (lower n)).isNone)) := by
  have aux : ∀ (ns : List Str) (acc : List CharacterRow × List Str),
      ns.foldl (fun acc n =>
        match lookup (lower n) with
        | some r => (acc.1 ++ [r], acc.2)
        | none => (acc.1, acc.2 ++ [n])) acc =
      (acc.1 ++ ns.filterMap (fun n => lookup (lower n)),
       acc.2 ++ ns.filter (fun n => (lookup (lower n)).isNone)) := by
    intro ns
    induction ns with
    | nil => intro acc; simp
    | cons n t ih =>
      intro acc
      rw [List.foldl_cons]
      cases hl : lookup (lower n) with
      | some r =>
        simp only [hl, List.filterMap_cons, List.filter_cons]
        rw [ih]
        simp [hl]
      | none =>
        simp only [hl, List.filterMap_cons, List.filter_cons]
        rw [ih]
        simp [hl]
  unfold resolve_scope_names
  rw [aux]
  simp

theorem nonEmptyB_nil : nonEmptyB [] = false := rfl

theorem filter_map_filter_eq_filterMap (G H : Str → Str) (hH : H [] = []) (l : List Str) :
    ((l.filter (fun s => nonEmptyB (G s))).map (fun s => H (G s))).filter nonEmptyB =
      l.filterMap (fun s =>
        if H (G s) = [] then none else some (H (G s))) := by
  induction l with
  | nil => rfl
  | cons s t ih =>
    by_cases hg : G s = []
    · have hb : nonEmptyB (G s) = false := by simp [nonEmptyB, hg]
      have ht : H (G s) = [] := by rw [hg]; exact hH
      simp [List.filter_cons, List.filterMap_cons, hb, ht, ih]
    · have hb : nonEmptyB (G s) = true := by simp [nonEmptyB, hg]
      by_cases hh2 : H (G s) = []
      · simp [List.filter_cons, List.filterMap_cons, hb, hh2, nonEmptyB_nil, ih]
      · have hb2 : nonEmptyB (H (G s)) = true := by simp [nonEmptyB, hh2]
        simp [List.filter_cons, List.filterMap_cons, hb, hh2, hb2, ih]

-- ---------------------------------------------------------------------------
-- Claim theorems
-- ---------------------------------------------------------------------------

/-- Claim C2: for every record whose age group is child, the height-tier
derivation returns the short tier, for every body_type value (derivation
modelled from the spec; the source has none). -/
theorem height_tier_child_short (body_type : Str) :
    height_tier sChild body_type = HeightTier.short := by
  simp [height_tier]

/-- Claim C4, counterexample: resolving the manual group input
"Rarity, rarity, Applejack" against a two-character roster yields three
members, with the Rarity record appearing twice — the duplicate is re-added,
not silently dropped, so the input does not resolve to exactly 2 distinct
members. -/
theorem manual_group_duplicates_kept :
    manual_group_resolve (build_lookup demoRoster) inputRRA = Except.ok resolvedRRA ∧
      resolvedRRA.length = 3 ∧ resolvedRRA[0]? = resolvedRRA[1]? :=
  ⟨rfl, rfl, rfl⟩

/-- Claim C4, amended: the manual-group name-resolution loop performs no
duplicate suppression: each input name occurrence with a case-insensitive
match contributes its record to the group, in input order, so repeated names
yield repeated records. -/
theorem resolve_names_keeps_duplicates (lookup : Str → Option CharacterRow)
    (names : List Str) :
    (resolve_scope_names lookup names).1 =
      names.filterMap (fun n => lookup (lower n)) := by
  rw [resolve_scope_names_eq]

/-- Claim C5, counterexample: single-mode assembly of a template that defines
no Height or Body_Type section produces a mapping without the keys Height and
Body_Type — they are not injected. -/
theorem assemble_single_missing_keys :
    dictGet (assemble_single demoItems rarityRec sSleep sAuto) keyHeight = none ∧
      dictGet (assemble_single demoItems rarityRec sSleep sAuto) keyBodyType = none :=
  ⟨rfl, rfl⟩

/-- Claim C5, amended: the single-mode assembled mapping always contains the
key Demographics (the only injected key), regardless of the template pack;
every other key is present only when the template pack defines that section. -/
theorem assemble_single_injected_keys (items : List (Str × Str)) (c : CharacterRow)
    (kind forced : Str) :
    (dictGet (assemble_single items c kind forced) keyDemographics).isSome = true ∧
      (∀ k, k ≠ keyDemographics → (∀ it ∈ items, it.1 ≠ k) →
        dictGet (assemble_single items c kind forced) k = none) := by
  constructor
  · simp only [assemble_single]
    rw [dictGet_set_self]
    rfl
  · intro k hk hkeys
    simp only [assemble_single]
    rw [dictGet_set_ne _ _ _ _ hk, dictGet_foldl_set_ne _ _ _ _ hkeys]
    rfl

/-- Claim C5, witness for the amended theorem at a concrete template and
character. -/
theorem assemble_single_injected_keys_witness :
    (dictGet (assemble_single demoItems rarityRec sSleep sAuto) keyDemographics).isSome = true ∧
      dictGet (assemble_single demoItems rarityRec sSleep sAuto) keyLighting = none :=
  ⟨(assemble_single_injected_keys demoItems rarityRec sSleep sAuto).1,
   (assemble_single_injected_keys demoItems rarityRec sSleep sAuto).2 keyLighting
     (by decide) (by decide)⟩

/-- Claim C7: a forced outfit choice (casual/pajamas/camp) wins
unconditionally; otherwise kind "sleep" resolves to pajamas, kind "camp" to
camp, and every other kind to casual; and the outfit-block lookup returns the
casual block for every unrecognized mode. -/
theorem outfit_resolution_spec :
    (∀ kind forced, (forced = sCasual ∨ forced = sPajamas ∨ forced = sCamp) →
        resolve_outfit_mode kind forced = forced) ∧
      (∀ kind forced, ¬(forced = sCasual ∨ forced = sPajamas ∨ forced = sCamp) →
        resolve_outfit_mode kind forced =
          if kind = sSleep then sPajamas else if kind = sCamp then sCamp else sCasual) ∧
      (∀ (c : CharacterRow) (mode : Str), mode ≠ sPajamas → mode ≠ sCamp →
        outfit_block_for c mode = c.casual) := by
  refine ⟨?_, ?_, ?_⟩
  · intro kind forced h
    simp [resolve_outfit_mode, h]
  · intro kind forced h
    simp [resolve_outfit_mode, h]
  · intro c mode hp hc
    simp [outfit_block_for, hp, hc]

/-- Claim C7, witness: the resolution table evaluated at concrete kinds and
modes. -/
theorem outfit_resolution_spec_witness :
    resolve_outfit_mode sWinter sCasual = sCasual ∧
      resolve_outfit_mode sSleep sAuto = sPajamas ∧
      resolve_outfit_mode sWinter sAuto = sCasual ∧
      outfit_block_for rarityRec sAuto = rarityRec.casual := by
  refine ⟨outfit_resolution_spec.1 sWinter sCasual (by decide), ?_, ?_,
    outfit_resolution_spec.2.2 rarityRec sAuto (by decide) (by decide)⟩
  · rw [outfit_resolution_spec.2.1 sSleep sAuto (by decide)]
    decide
  · rw [outfit_resolution_spec.2.1 sWinter sAuto (by decide)]
    decide

/-- Claim C8, counterexample: a section value with a leading comma is rendered
with the leading comma intact (only trailing commas are stripped), and a
non-empty section outside the fixed declared order ("Scenario") contributes
nothing to the main prompt. -/
theorem render_main_keeps_leading_comma :
    (render_prompt mLeadingComma).main = sCommaIndoors ∧
      (render_prompt mLeadingComma).main.head? = some commaChar ∧
      isSubstrB sBar (render_prompt mLeadingComma).main = false :=
  ⟨rfl, rfl, rfl⟩

/-- Claim C8, amended: the rendered main prompt equals the ", "-join, in the
fixed declared section order, of the values of exactly those declared sections
whose content survives trimming (surrounding whitespace and trailing commas
removed, leading commas preserved); absent or blank sections and sections
outside the declared order contribute nothing. -/
theorem render_main_eq_spec_order (assembled : Dict) :
    (render_prompt assembled).main = mainPromptSpec assembled :=
  congrArg (joinSep sepCS)
    (filter_map_filter_eq_filterMap (getS assembled) rstripComma rfl mainSectionOrder)

/-- Claim C9, counterexample: a character source whose rows all have blank
names loads successfully as an empty roster — no fatal error is raised. -/
theorem read_characters_blank_rows_ok_empty :
    read_characters_csv requiredCols [blankRawRow] = Except.ok [] := rfl

/-- Claim C9, amended: when the header is complete, loading never fails on
content: rows with blank names are filtered out and zero usable rows yields
an empty roster result, not an error. -/
theorem read_characters_all_blank_returns_empty (fieldnames : List Str)
    (rows : List RawCharRow)
    (hcols : ∀ f ∈ requiredCols, f ∈ fieldnames)
    (hblank : ∀ r ∈ rows, pyStrip (r.character.getD []) = []) :
    read_characters_csv fieldnames rows = Except.ok [] := by
  have hmiss : requiredCols.filter (fun f => decide (f ∉ fieldnames)) = [] := by
    rw [List.filter_eq_nil_iff]
    intro f hf
    simp [hcols f hf]
  simp only [read_characters_csv]
  rw [hmiss, if_neg (by simp)]
  congr 1
  rw [List.filterMap_eq_nil_iff]
  intro r hr
  simp [hblank r hr]

/-- Claim C9, witness for the amended theorem: two blank-named rows under the
full header load as the empty roster. -/
theorem read_characters_all_blank_returns_empty_witness :
    read_characters_csv requiredCols [blankRawRow, blankRawRow] = Except.ok [] :=
  read_characters_all_blank_returns_empty requiredCols [blankRawRow, blankRawRow]
    (by decide) (by decide)

/-- Claim C1, counterexample: the renderer injects no fixed safety-bleed text;
a single-character unit assembled from a template with no negative-tagged
sections renders an empty negative prompt, so no non-empty fixed block is
contained verbatim in the negative prompt of every generated unit. -/
theorem negative_has_no_fixed_block :
    (render_prompt (assemble_single demoItems rarityRec sSleep sAuto)).negative = [] ∧
      ¬∃ block : Str, block ≠ [] ∧
        ∀ assembled : Dict, isSubstrB block (render_prompt assembled).negative = true := by
  constructor
  · rfl
  · rintro ⟨block, hb, hall⟩
    have h0 := hall []
    have hnil : (render_prompt []).negative = [] := rfl
    rw [hnil] at h0
    cases block with
    | nil => exact hb rfl
    | cons c rest => simp [isSubstrB] at h0

/-- Claim C1, amended: the negative prompt is assembled solely from the
negative-tagged sections the template defines (Negative_Prompt_Header, then
Negative_Content_1..5): every such section with non-blank content appears in
the rendered negative prompt verbatim (after trailing-comma trimming); when
none are defined the negative prompt is empty — no fixed block is injected. -/
theorem render_negative_contains_sections (assembled : Dict) (sec : Str)
    (hsec : sec ∈ negSectionOrder) (hne : getS assembled sec ≠ []) :
    isSubstrB (rstripComma (getS assembled sec)) (render_prompt assembled).negative = true := by
  by_cases ht : rstripComma (getS assembled sec) = []
  · rw [ht]
    exact isSubstrB_nil_pat _
  · have hrw : (render_prompt assembled).negative =
        joinSep sepCS
          (((if getS assembled keyNegHeader ≠ [] then
              [rstripComma (getS assembled keyNegHeader)] else []) ++
            negContentOrder.filterMap (fun s =>
              if getS assembled s ≠ [] then some (rstripComma (getS assembled s))
              else none)).filter nonEmptyB) := rfl
    rw [hrw]
    apply isSubstrB_joinSep
    rw [List.mem_filter]
    refine ⟨?_, by simp [nonEmptyB, ht]⟩
    rw [List.mem_append]
    rcases List.mem_cons.mp hsec with h1 | h2
    · left
      subst h1
      rw [if_pos hne]
      exact List.mem_singleton_self _
    · right
      exact List.mem_filterMap.mpr ⟨sec, h2, by rw [if_pos hne]⟩

/-- Claim C1, witness for the amended theorem: the negative header section of
a concrete assembled mapping appears verbatim in the rendered negative
prompt. -/
theorem render_negative_contains_sections_witness :
    isSubstrB (rstripComma (getS mNegDemo keyNegHeader))
      (render_prompt mNegDemo).negative = true :=
  render_negative_contains_sections mNegDemo keyNegHeader (by decide) (by decide)

/-- Claim C6, counterexample: a typed name with no match in the scope lookup
makes the manual-group resolution fail with an error naming the unmatched
input — it raises instead of skipping the name and continuing. -/
theorem manual_group_unmatched_raises_concrete :
    manual_group_resolve (build_lookup demoRoster) inputRN =
      Except.error (GroupError.notFound [nNobody]) := rfl

/-- Claim C6, amended: whenever at least two names are typed and any of them
has no case-insensitive match in the scope lookup, manual-group resolution
returns the error listing every unmatched name — the request aborts rather
than continuing without the unmatched name. -/
theorem manual_group_unmatched_raises (lookup : Str → Option CharacterRow)
    (group_str : Str) (h2 : 2 ≤ (parse_list group_str).length)
    (n : Str) (hn : n ∈ parse_list group_str) (hnone : lookup (lower n) = none) :
    manual_group_resolve lookup group_str =
      Except.error (GroupError.notFound
        ((parse_list group_str).filter (fun m => (lookup (lower m)).isNone))) := by
  have hmem : n ∈ (parse_list group_str).filter (fun m => (lookup (lower m)).isNone) :=
    List.mem_filter.mpr ⟨hn, by simp [hnone]⟩
  have hne : (parse_list group_str).filter (fun m => (lookup (lower m)).isNone) ≠ [] :=
    List.ne_nil_of_mem hmem
  simp only [manual_group_resolve, resolve_scope_names_eq]
  rw [if_neg (by omega), if_pos hne]

/-- Claim C6, witness for the amended theorem at a concrete roster and input. -/
theorem manual_group_unmatched_raises_witness :
    manual_group_resolve (build_lookup demoRoster) inputRN =
      Except.error (GroupError.notFound
        ((parse_list inputRN).filter
          (fun m => ((build_lookup demoRoster) (lower m)).isNone))) :=
  manual_group_unmatched_raises (build_lookup demoRoster) inputRN (by decide)
    nNobody (by decide) (by decide)

/-- Claim C10: in single-character assembly the resolved outfit mode is
consulted only for a template section named "clothing" (case-insensitively)
whose placeholder-substituted content is blank: if no such section exists the
assembled mapping is identical for every forced mode, and when such a section
exists (with unique section names) its assembled value is exactly the resolved
outfit block. -/
theorem assemble_single_clothing_injection :
    (∀ (items : List (Str × Str)) (c : CharacterRow) (kind f1 f2 : Str),
        (∀ it ∈ items, ¬(lower it.1 = sClothingLower ∧
          pyStrip (substitute_placeholders c it.2) = [])) →
        assemble_single items c kind f1 = assemble_single items c kind f2) ∧
      (∀ (items : List (Str × Str)) (c : CharacterRow) (kind forced : Str)
          (it : Str × Str),
        items.Pairwise (fun a b => a.1 ≠ b.1) → it ∈ items →
        lower it.1 = sClothingLower → pyStrip (substitute_placeholders c it.2) = [] →
        dictGet (assemble_single items c kind forced) it.1 =
          some (outfit_block_for c (resolve_outfit_mode kind forced))) := by
  constructor
  · intro items c kind f1 f2 h
    simp only [assemble_single]
    congr 1
    apply List.foldl_ext
    intro d it hit
    have hout : single_section_out c (resolve_outfit_mode kind f1) it =
        single_section_out c (resolve_outfit_mode kind f2) it := by
      simp only [single_section_out]
      rw [if_neg (h it hit), if_neg (h it hit)]
    rw [hout]
  · intro items c kind forced it hp hm hcl hblank
    have hne : it.1 ≠ keyDemographics := by
      intro he
      rw [he] at hcl
      exact absurd hcl (by decide)
    simp only [assemble_single]
    rw [dictGet_set_ne _ _ _ _ hne, dictGet_foldl_set_mem _ _ _ _ hp hm]
    simp only [single_section_out]
    rw [if_pos ⟨hcl, hblank⟩]

/-- Claim C10, witness: with a non-blank Clothing section the assembly is
independent of the forced mode, and with a blank Clothing section its value is
the resolved outfit block. -/
theorem assemble_single_clothing_injection_witness :
    assemble_single itemsClothed rarityRec sSleep sCasual =
        assemble_single itemsClothed rarityRec sSleep sPajamas ∧
      dictGet (assemble_single itemsBlankClothing rarityRec sSleep sAuto) keyClothing =
        some (outfit_block_for rarityRec (resolve_outfit_mode sSleep sAuto)) :=
  ⟨assemble_single_clothing_injection.1 itemsClothed rarityRec sSleep sCasual sPajamas
      (by decide),
   assemble_single_clothing_injection.2 itemsBlankClothing rarityRec sSleep sAuto
      (keyClothing, []) (by decide) (by decide) (by decide) (by decide)⟩

/-- Claim C3, counterexample: in the group assembly for two teen girls, the
injected per-character Demographics key joins one fragment per member without
any name prefix — the first member's name does not even occur in it — so not
every injected per-character key carries name-prefixed fragments. -/
theorem group_demographics_not_name_prefixed :
    dictGet (assemble_group demoItems demoGroup sSleep sAuto) keyDemographics =
        some groupDemographicsRA ∧
      isSubstrB rarityRec.character groupDemographicsRA = false :=
  ⟨rfl, rfl⟩

set_option maxHeartbeats 4000000 in
/-- Claim C3, amended: only the Hair_Block_Placeholder identity key is built
as name-prefixed per-member fragments: whenever the per-member join is free of
placeholder tokens and its edges carry no whitespace or comma, the assembled
Hair_Block_Placeholder value is exactly the ", "-join of one
"name, hair, outfit" fragment per member, in the caller-supplied order, and
each fragment starts with that member's exact name. -/
theorem group_hair_block_fragments (items : List (Str × Str))
    (group_chars : List CharacterRow) (kind forced : Str) (raw : Str)
    (hraw : raw = joinSep sepCS
      (group_chars.map (group_fragment (resolve_outfit_mode kind forced))))
    (h1 : isSubstrB phName raw = false) (h2 : isSubstrB phHair raw = false)
    (h3 : isSubstrB phCasual raw = false) (h4 : isSubstrB phPajamas raw = false)
    (h5 : isSubstrB phCamp raw = false)
    (hh : headOk (fun c => !c.isWhitespace && !(c == commaChar)) raw = true)
    (hl : lastOk (fun c => !c.isWhitespace && !(c == commaChar)) raw = true) :
    dictGet (assemble_group items group_chars kind forced) keyHBP = some raw ∧
      ∀ c ∈ group_chars,
        startsWith c.character (group_fragment (resolve_outfit_mode kind forced) c) = true := by
  constructor
  · simp only [assemble_group]
    rw [dictGet_map_val,
      dictGet_set_ne _ _ _ _ (by decide : keyHBP ≠ keyDemographics),
      dictGet_set_ne _ _ _ _ (by decide : keyHBP ≠ keyClothing),
      dictGet_set_ne _ _ _ _ (by decide : keyHBP ≠ keyHands),
      dictGet_set_ne _ _ _ _ (by decide : keyHBP ≠ keyBody),
      dictGet_set_ne _ _ _ _ (by decide : keyHBP ≠ keyPose),
      dictGet_set_self, ← hraw, Option.map_some']
    have hclean :=
      cleanup_value_eq_self (group_chars.map (fun x => x.character)) raw
        h1 h2 h3 h4 h5 hh hl
    rw [hclean]
  · intro c hc
    simp only [group_fragment, joinSep]
    rw [List.append_assoc]
    exact startsWith_append _ _

set_option maxHeartbeats 4000000 in
/-- Claim C3, witness for the amended theorem: the demo group of two members
under the sleep template in auto mode. -/
theorem group_hair_block_fragments_witness :
    dictGet (assemble_group demoItems demoGroup sSleep sAuto) keyHBP = some rawDemo ∧
      ∀ c ∈ demoGroup,
        startsWith c.character (group_fragment (resolve_outfit_mode sSleep sAuto) c) = true :=
  group_hair_block_fragments demoItems demoGroup sSleep sAuto rawDemo rfl
    (by decide) (by decide) (by decide) (by decide) (by decide) (by decide) (by decide)
